import Mathlib

/-!
Verification of the Govee LAN light integration (`custom_components/govee_lan_light`).

The development shallowly embeds the Python source:

* `api.py` — JSON values are modelled by the mutual inductive `Json`;
  Python's dynamic attribute/subscript semantics (`"k" in x`, `x["k"]`,
  `x.get(k, d)`, truthiness, `or`) are modelled by total functions returning
  `Except PyErr _`, where `PyErr` stands for the uncaught Python exceptions
  (`json.JSONDecodeError`, `TypeError`, `AttributeError`, `KeyError`).
* The network is modelled by the `NetEvent` a single status-query attempt
  observes (timeout, socket error, bind failure, datagram from the wrong
  sender, or a datagram from the target that either fails or succeeds JSON
  decoding).  `get_device_state` consumes one event per retry attempt and
  records the receive timeout each executed attempt used.
* `coordinator.py` — coordinator state and its transition functions
  (`_async_update_data`, `async_refresh_immediate`, `update_local_state`)
  are embedded as pure state-passing functions; a poll's interaction with
  the device is abstracted as a `PollOutcome` input.
* Discovery (`discover_devices`) is embedded as a fold over the list of
  datagrams received before the deadline.
-/

namespace GoveeLan

/-! ## JSON values (results of `json.loads`) -/

mutual
/-- A decoded JSON value, as produced by Python's `json.loads`
(`null`/`None`, booleans, numbers, strings, arrays, objects).
Numbers are modelled as integers; no protocol field carries a fraction. -/
inductive Json where
  | null
  | bool (b : Bool)
  | num (n : Int)
  | str (s : String)
  | arr (xs : JsonList)
  | obj (kvs : JsonKVs)
deriving DecidableEq, Repr

/-- A list of JSON values (a JSON array). -/
inductive JsonList where
  | nil
  | cons (x : Json) (xs : JsonList)
deriving DecidableEq, Repr

/-- Key/value entries of a JSON object (a Python dict, keys unique). -/
inductive JsonKVs where
  | nil
  | cons (k : String) (v : Json) (kvs : JsonKVs)
deriving DecidableEq, Repr
end

/-- First-match lookup of a key in a JSON object's entries (Python `dict`
lookup; keys are unique in a decoded dict, so first match is the match). -/
def lookupJ : JsonKVs → String → Option Json
  | .nil, _ => none
  | .cons k v rest, key => if k = key then some v else lookupJ rest key

/-- Does a JSON array contain a given value (Python `x in list`)? -/
def memberJ : JsonList → Json → Bool
  | .nil, _ => false
  | .cons x xs, v => x = v || memberJ xs v

/-- Python truthiness of a decoded JSON value: `None`, `False`, `0`, `""`,
`[]` and `{}` are falsy, everything else truthy. -/
def pyTruthy : Json → Bool
  | .null => false
  | .bool b => b
  | .num n => n != 0
  | .str s => s ≠ ""
  | .arr .nil => false
  | .arr (.cons _ _) => true
  | .obj .nil => false
  | .obj (.cons _ _ _) => true

/-- Does the second character list occur at the start of the first? -/
def charsStartWith : List Char → List Char → Bool
  | _, [] => true
  | [], _ :: _ => false
  | c :: cs, p :: ps => c == p && charsStartWith cs ps

/-- Does the second character list occur somewhere inside the first? -/
def charsContain : List Char → List Char → Bool
  | [], pat => pat.isEmpty
  | c :: cs, pat => charsStartWith (c :: cs) pat || charsContain cs pat

/-- Does `pat` occur as a substring of `s` (Python `pat in str`)? -/
def strContains (s pat : String) : Bool := charsContain s.data pat.data

/-- Uncaught Python exceptions that can escape the embedded code paths. -/
inductive PyErr where
  /-- The `json.JSONDecodeError` raised by `json.loads` on malformed bytes. -/
  | jsonDecode
  /-- A `TypeError` (e.g. `"k" in 5`, `5["k"]`, `"abc"["k"]`). -/
  | typeErr
  /-- An `AttributeError` (e.g. `(5).get`, `[].get`). -/
  | attrErr
  /-- A `KeyError` from subscripting a dict with a missing key. -/
  | keyErr
deriving DecidableEq, Repr

/-- Python `key in x` for a decoded JSON value `x`: key membership for a
dict, element membership for a list, substring test for a string, and a
`TypeError` for the remaining types. -/
def pyContains (x : Json) (key : String) : Except PyErr Bool :=
  match x with
  | .obj kvs => .ok (lookupJ kvs key).isSome
  | .arr xs => .ok (memberJ xs (.str key))
  | .str s => .ok (strContains s key)
  | _ => .error .typeErr

/-- Python `x[key]` for a decoded JSON value `x`: dict subscription
(raising `KeyError` when absent), `TypeError` otherwise (string and list
subscripts require integers). -/
def pySubscript (x : Json) (key : String) : Except PyErr Json :=
  match x with
  | .obj kvs =>
    match lookupJ kvs key with
    | some v => .ok v
    | none => .error .keyErr
  | _ => .error .typeErr

/-- Python `x.get(key)`: `dict.get` returning `None` (here `Option`) when
absent; any non-dict value has no `.get` attribute (`AttributeError`). -/
def pyGet (x : Json) (key : String) : Except PyErr (Option Json) :=
  match x with
  | .obj kvs => .ok (lookupJ kvs key)
  | _ => .error .attrErr

/-- Python `x.get(key, dflt)`. -/
def pyGetD (x : Json) (key : String) (dflt : Json) : Except PyErr Json :=
  match pyGet x key with
  | .ok v => .ok (v.getD dflt)
  | .error e => .error e

/-- Python `a or b` where `a` is `x.get(key)`'s result: the left operand
when it is present and truthy, otherwise `b`. -/
def pyOr (a : Option Json) (b : Json) : Json :=
  match a with
  | some v => if pyTruthy v then v else b
  | none => b

/-- Python `v == 1` where `v` came from `dict.get` (`None` when absent):
true for the number `1` and for `True` (Python's bool/int coercion),
false for `None` and every other value. -/
def onOffEqOne : Option Json → Bool
  | some (.num n) => n == 1
  | some (.bool b) => b
  | _ => false

/-- Python `v == s` for a string literal `s` (as in `msg.get("cmd") == "devStatus"`):
only a string value can compare equal. -/
def cmdEq (v : Option Json) (s : String) : Bool :=
  match v with
  | some (.str c) => c == s
  | _ => false

/-! ## Constants (`const.py`) -/

/-- From `const.py`: maximum status-query attempts. -/
def MAX_RETRIES : Nat := 3

/-- From `const.py`: base status timeout in seconds (`TIMEOUT_STATUS = 2.0`,
an exactly representable float, modelled as a rational). -/
def TIMEOUT_STATUS : ℚ := 2

/-! ## `api.py`: device state and the status query -/

/-- The `GoveeDeviceState` dataclass.  Python is dynamically typed, so the
fields hold whatever JSON values the parsed response supplied; `on` is
always a `bool` (result of an `==` comparison) and is kept as `Json.bool`. -/
structure GoveeDeviceState where
  «on» : Json
  brightness : Json
  color : Json × Json × Json
  color_temp_kelvin : Json
deriving DecidableEq, Repr

/-- What the network delivers to one `_send_status_query` call. -/
inductive NetEvent where
  /-- Binding the listen port 4002 failed (`OSError` caught, returns `None`). -/
  | bindFail
  /-- Socket error sending or receiving (`OSError` caught, returns `None`). -/
  | sockErr
  /-- No datagram before the timeout (`asyncio.TimeoutError`, returns `None`). -/
  | timeout
  /-- A datagram arrived from an address other than the target (discarded). -/
  | wrongSender
  /-- A datagram arrived from the target device; `none` means its bytes are
  not valid JSON (so `json.loads` raises), `some j` its decoded value. -/
  | fromTarget (raw : Option Json)
deriving DecidableEq, Repr

/-- Embeds `GoveeLanApi._send_status_query`: every failure path caught inside the
function yields `None`; a datagram from the target is JSON-decoded, and a
decode failure raises `json.JSONDecodeError`, which no handler in
`_send_status_query` (or `get_device_state`) catches. -/
def sendStatusQuery : NetEvent → Except PyErr (Option Json)
  | .bindFail => .ok none
  | .sockErr => .ok none
  | .timeout => .ok none
  | .wrongSender => .ok none
  | .fromTarget none => .error .jsonDecode
  | .fromTarget (some j) => .ok (some j)

/-- The response handling of one `get_device_state` attempt
(`api.py` lines 130–143): `if response and "msg" in response`, then
`msg = response["msg"]`, `msg.get("cmd") == "devStatus" and "data" in msg`,
then field extraction with per-field defaults.  `.ok none` means the
attempt failed (retry); `.error` means a Python exception escapes. -/
def handleResponse : Option Json → Except PyErr (Option GoveeDeviceState)
  | none => .ok none
  | some response =>
    if pyTruthy response = false then .ok none else
    match pyContains response "msg" with
    | .error e => .error e
    | .ok false => .ok none
    | .ok true =>
    match pySubscript response "msg" with
    | .error e => .error e
    | .ok msg =>
    match pyGet msg "cmd" with
    | .error e => .error e
    | .ok cmd =>
    if cmdEq cmd "devStatus" = false then .ok none else
    match pyContains msg "data" with
    | .error e => .error e
    | .ok false => .ok none
    | .ok true =>
    match pySubscript msg "data" with
    | .error e => .error e
    | .ok data =>
    match pyGet data "onOff" with
    | .error e => .error e
    | .ok onOff =>
    match pyGetD data "brightness" (.num 100) with
    | .error e => .error e
    | .ok brightness =>
    match pyGetD data "color" (.obj .nil) with
    | .error e => .error e
    | .ok colorObj =>
    match pyGetD colorObj "r" (.num 255) with
    | .error e => .error e
    | .ok r =>
    match pyGetD colorObj "g" (.num 255) with
    | .error e => .error e
    | .ok g =>
    match pyGetD colorObj "b" (.num 255) with
    | .error e => .error e
    | .ok b =>
    match pyGetD data "colorTemInKelvin" (.num 0) with
    | .error e => .error e
    | .ok kelvin =>
    .ok (some ⟨.bool (onOffEqOne onOff), brightness, (r, g, b), kelvin⟩)

/-- One retry-loop iteration of `get_device_state`: the locked
`_send_status_query` call followed by the response shape check. -/
def attemptResult (e : NetEvent) : Except PyErr (Option GoveeDeviceState) :=
  match sendStatusQuery e with
  | .error err => .error err
  | .ok resp => handleResponse resp

/-- The `for attempt in range(MAX_RETRIES)` loop of `get_device_state`,
over the remaining attempt numbers.  Returns the call's outcome together
with the list of receive timeouts the executed attempts used
(`TIMEOUT_STATUS * (attempt + 1)` for attempt number `attempt`). -/
def gdsLoop (env : Nat → NetEvent) :
    List Nat → Except PyErr (Option GoveeDeviceState) × List ℚ
  | [] => (.ok none, [])
  | a :: rest =>
    let t : ℚ := TIMEOUT_STATUS * ((a : ℚ) + 1)
    match attemptResult (env a) with
    | .error e => (.error e, [t])
    | .ok (some st) => (.ok (some st), [t])
    | .ok none =>
      let next := gdsLoop env rest
      (next.1, t :: next.2)

/-- Embeds `GoveeLanApi.get_device_state`, run against a network that delivers
`env a` to attempt number `a`.  `.ok none` is the `None` ("NotAvailable")
return; the second component is the trace of per-attempt timeouts. -/
def get_device_state (env : Nat → NetEvent) :
    Except PyErr (Option GoveeDeviceState) × List ℚ :=
  gdsLoop env (List.range MAX_RETRIES)

/-! ## `api.py`: fire-and-forget command messages -/

/-- A one-entry JSON object. -/
def kv1 (k : String) (v : Json) : JsonKVs := .cons k v .nil

/-- A two-entry JSON object. -/
def kv2 (k1 : String) (v1 : Json) (k2 : String) (v2 : Json) : JsonKVs :=
  .cons k1 v1 (.cons k2 v2 .nil)

/-- Every command the client builds has the envelope
`{"msg": {"cmd": cmd, "data": data}}`. -/
def mkMsg (cmd : String) (data : Json) : Json :=
  .obj (kv1 "msg" (.obj (kv2 "cmd" (.str cmd) "data" data)))

/-- Field lookup on a JSON object (none for any other value). -/
def jGet (j : Json) (k : String) : Option Json :=
  match j with
  | .obj kvs => lookupJ kvs k
  | _ => none

/-- The value at `message["msg"]["data"][k]`, when that path exists. -/
def msgDataField (j : Json) (k : String) : Option Json :=
  (jGet j "msg").bind fun m => (jGet m "data").bind fun d => jGet d k

/-- Embeds `GoveeLanApi.set_brightness`: the transmitted message, with the input
clamped by `max(1, min(100, brightness))` before sending. -/
def set_brightness_message (brightness : Int) : Json :=
  let b := max 1 (min 100 brightness)
  mkMsg "brightness" (.obj (kv1 "value" (.num b)))

/-- Embeds `GoveeLanApi.set_color`: each channel clamped to `[0, 255]`, and
`colorTemInKelvin` always transmitted as `0`. -/
def set_color_message (r g b : Int) : Json :=
  let r' := max 0 (min 255 r)
  let g' := max 0 (min 255 g)
  let b' := max 0 (min 255 b)
  mkMsg "colorwc" (.obj (kv2 "color"
    (.obj (.cons "r" (.num r') (.cons "g" (.num g') (.cons "b" (.num b') .nil))))
    "colorTemInKelvin" (.num 0)))

/-- Embeds `GoveeLanApi.set_color_temp`: kelvin clamped to `[2000, 9000]`, and
`color` always transmitted as `(0, 0, 0)`. -/
def set_color_temp_message (kelvin : Int) : Json :=
  let k := max 2000 (min 9000 kelvin)
  mkMsg "colorwc" (.obj (kv2 "color"
    (.obj (.cons "r" (.num 0) (.cons "g" (.num 0) (.cons "b" (.num 0) .nil))))
    "colorTemInKelvin" (.num k)))

/-! ## `api.py`: discovery -/

/-- The `GoveeDeviceInfo` dataclass (discovered device).  `mac` is `Json.null` when the
reply omitted the field (Python `dict.get` returns `None`). -/
structure GoveeDeviceInfo where
  ip : Json
  device : Json
  sku : Json
  mac : Json
deriving DecidableEq, Repr

/-- One datagram received during discovery: the sender's source IP and the
decoded payload (`none` when `json.loads` raises `JSONDecodeError`, which
discovery catches and skips). -/
structure Datagram where
  sender : String
  payload : Option Json
deriving DecidableEq, Repr

/-- The per-reply processing of `discover_devices` (everything except the
`seen_devices` dedup test): `.ok none` means the reply is skipped (bad
JSON, no `"msg"` key, `cmd ≠ "scan"`, no `"data"` key, or falsy device
identifier), `.ok (some info)` the candidate entry, and `.error` an
uncaught exception (which aborts the whole discovery call). -/
def processReply (d : Datagram) : Except PyErr (Option GoveeDeviceInfo) :=
  match d.payload with
  | none => .ok none
  | some response =>
    match pyContains response "msg" with
    | .error e => .error e
    | .ok false => .ok none
    | .ok true =>
    match pySubscript response "msg" with
    | .error e => .error e
    | .ok msg =>
    match pyGet msg "cmd" with
    | .error e => .error e
    | .ok cmd =>
    if cmdEq cmd "scan" = false then .ok none else
    match pyContains msg "data" with
    | .error e => .error e
    | .ok false => .ok none
    | .ok true =>
    match pySubscript msg "data" with
    | .error e => .error e
    | .ok device_data =>
    match pyGet device_data "ip" with
    | .error e => .error e
    | .ok ipField =>
    let device_ip := pyOr ipField (.str d.sender)
    match pyGetD device_data "device" (.str "") with
    | .error e => .error e
    | .ok device_id =>
    if pyTruthy device_id = false then .ok none else
    match pyGetD device_data "sku" (.str "") with
    | .error e => .error e
    | .ok sku =>
    match pyGet device_data "mac" with
    | .error e => .error e
    | .ok mac =>
    .ok (some ⟨device_ip, device_id, sku, mac.getD .null⟩)

/-- The candidate entry a datagram contributes when processing it does not
raise (used to state discovery's input/output relation). -/
def replyOk (d : Datagram) : Option GoveeDeviceInfo :=
  match processReply d with
  | .ok o => o
  | .error _ => none

/-- The mutable state of the discovery receive loop: the accumulated
result list and the `seen_devices` identifier set (kept as a list in
insertion order; only membership is ever queried on it). -/
structure DiscoState where
  devices : List GoveeDeviceInfo
  seen : List Json
deriving DecidableEq, Repr

/-- One iteration of the discovery receive loop on a received datagram:
process the reply and, for a candidate with an unseen identifier, append
it to the results and its identifier to `seen_devices`. -/
def discoStep (st : DiscoState) (d : Datagram) : Except PyErr DiscoState :=
  match processReply d with
  | .error e => .error e
  | .ok none => .ok st
  | .ok (some info) =>
    if info.device ∈ st.seen then .ok st
    else .ok ⟨st.devices ++ [info], st.seen ++ [info.device]⟩

/-- The discovery receive loop over the datagrams that arrive before the
deadline (the deadline elapsing or a socket error ends the list). -/
def discoGo : DiscoState → List Datagram → Except PyErr (List GoveeDeviceInfo)
  | st, [] => .ok st.devices
  | st, d :: rest =>
    match discoStep st d with
    | .error e => .error e
    | .ok st' => discoGo st' rest

/-- Embeds `discover_devices`, run against the list of datagrams received before
the deadline.  (A bind or send failure before the loop returns the empty
list, i.e. behaves like the empty datagram list.) -/
def discover_devices (ds : List Datagram) : Except PyErr (List GoveeDeviceInfo) :=
  discoGo ⟨[], []⟩ ds

/-- Modelled from the spec ("the first reply for a given identifier wins,
later duplicates are dropped"): keep each candidate whose identifier has
not been seen, first occurrence first.  Used only to state what
`discover_devices` computes. -/
def specDedupFirstWins (seen : List Json) : List GoveeDeviceInfo → List GoveeDeviceInfo
  | [] => []
  | i :: rest =>
    if i.device ∈ seen then specDedupFirstWins seen rest
    else i :: specDedupFirstWins (seen ++ [i.device]) rest

/-! ## `coordinator.py` -/

/-- The local state `GoveeLanLightCoordinator.__init__` constructs
(`on=False, brightness=100, color=(255,255,255), color_temp_kelvin=0`). -/
def initLocalState : GoveeDeviceState :=
  ⟨.bool false, .num 100, (.num 255, .num 255, .num 255), .num 0⟩

/-- The coordinator's mutable attributes. -/
structure CoordState where
  available : Bool
  local_state : GoveeDeviceState
  supports_status_query : Bool
deriving DecidableEq, Repr

/-- The coordinator state right after `__init__`:
`_available = True`, the default local state, `_supports_status_query = True`. -/
def initCoord : CoordState := ⟨true, initLocalState, true⟩

/-- What `await self.api.get_device_state()` does on a given poll cycle,
as observed by `_async_update_data`. -/
inductive PollOutcome where
  /-- The call returned a parsed device state. -/
  | success (st : GoveeDeviceState)
  /-- The call returned `None` (all retries exhausted). -/
  | notAvailable
  /-- The call raised (caught by the poll's `except Exception`). -/
  | raised
deriving DecidableEq, Repr

/-- Embeds `GoveeLanLightCoordinator._async_update_data`: returns the new
coordinator state, the data served to listeners, and whether a network
status query was issued this cycle. -/
def async_update_data (c : CoordState) (out : PollOutcome) :
    CoordState × GoveeDeviceState × Bool :=
  if c.supports_status_query = false then
    ({ c with available := true }, c.local_state, false)
  else
    match out with
    | .success st => ({ c with available := true, local_state := st }, st, true)
    | .notAvailable =>
      ({ c with supports_status_query := false, available := true }, c.local_state, true)
    | .raised => ({ c with available := true }, c.local_state, true)

/-- What `async_refresh_immediate` does. -/
inductive RefreshAction where
  /-- Re-publish the local state (`async_set_updated_data`), no network poll. -/
  | publishLocal (st : GoveeDeviceState)
  /-- Trigger a normal (network) poll via `async_request_refresh()`. -/
  | requestRefresh
deriving DecidableEq, Repr

/-- Embeds `GoveeLanLightCoordinator.async_refresh_immediate`: the action taken
and whether it leads to a network status query. -/
def async_refresh_immediate (c : CoordState) : RefreshAction × Bool :=
  if c.supports_status_query = false then
    (.publishLocal c.local_state, false)
  else
    (.requestRefresh, true)

/-- Embeds `GoveeLanLightCoordinator.update_local_state`: each keyword argument,
when supplied, overwrites its field; supplying `color` also resets the
tracked kelvin to `0`, and supplying `color_temp_kelvin` also resets the
tracked color to `(0, 0, 0)` (in that order, as in the source). -/
def update_local_state (st : GoveeDeviceState)
    («on» : Option Json) (brightness : Option Json)
    (color : Option (Json × Json × Json)) (color_temp_kelvin : Option Json) :
    GoveeDeviceState :=
  let st1 := match «on» with
    | some v => { st with «on» := v }
    | none => st
  let st2 := match brightness with
    | some v => { st1 with brightness := v }
    | none => st1
  let st3 := match color with
    | some c => { st2 with color := c, color_temp_kelvin := .num 0 }
    | none => st2
  match color_temp_kelvin with
    | some k => { st3 with color_temp_kelvin := k, color := (.num 0, .num 0, .num 0) }
    | none => st3

/-- The arguments of one `update_local_state` call. -/
structure LocalUpdate where
  «on» : Option Json
  brightness : Option Json
  color : Option (Json × Json × Json)
  color_temp_kelvin : Option Json
deriving DecidableEq, Repr

/-- Apply a sequence of `update_local_state` calls. -/
def apply_updates (st : GoveeDeviceState) : List LocalUpdate → GoveeDeviceState
  | [] => st
  | u :: rest =>
    apply_updates (update_local_state st u.«on» u.brightness u.color u.color_temp_kelvin) rest

/-- An externally observable event in the coordinator's lifetime. -/
inductive CoordEvent where
  /-- A scheduled or out-of-band poll cycle (`_async_update_data`). -/
  | poll (out : PollOutcome)
  /-- An `async_refresh_immediate` request. -/
  | refreshImmediate
  /-- An `update_local_state` call from a command issuer. -/
  | localUpdate (u : LocalUpdate)
deriving DecidableEq, Repr

/-- One coordinator step: the successor state and whether the step issued
a network status query. -/
def coordStep (c : CoordState) : CoordEvent → CoordState × Bool
  | .poll out => ((async_update_data c out).1, (async_update_data c out).2.2)
  | .refreshImmediate => (c, (async_refresh_immediate c).2)
  | .localUpdate u =>
    ({ c with local_state := update_local_state c.local_state u.«on» u.brightness u.color u.color_temp_kelvin }, false)

/-- Run the coordinator over a sequence of events. -/
def runTrace (c : CoordState) : List CoordEvent → CoordState
  | [] => c
  | e :: tr => runTrace (coordStep c e).1 tr

/-- Whether any step of the event sequence issues a network status query. -/
def traceNet (c : CoordState) : List CoordEvent → Bool
  | [] => false
  | e :: tr => (coordStep c e).2 || traceNet (coordStep c e).1 tr

/-! ## Statement-side notions -/

/-- Is a tracked kelvin value a positive number ("in temperature mode")? -/
def kelvinPos : Json → Bool
  | .num n => 0 < n
  | _ => false

/-- The "unset" color sentinel `(0, 0, 0)`. -/
def blackColor : Json × Json × Json := (.num 0, .num 0, .num 0)

/-- The color/temperature mutual-exclusion invariant: a positive tracked
kelvin forces the tracked color to be black. -/
def mutexOk (st : GoveeDeviceState) : Bool :=
  !(kelvinPos st.color_temp_kelvin) || decide (st.color = blackColor)

/-! ## Claim C1 -/

/-- C1: for a device that produces no valid status response (every attempt
fails without raising), `get_device_state` makes exactly `MAX_RETRIES = 3`
attempts, attempt `n` (n = 1, 2, 3) using a receive timeout of `n` times
the 2-second base status timeout, in increasing order, and returns `None`
(NotAvailable) only after the third attempt has failed. -/
theorem C1_retry_policy (env : Nat → NetEvent)
    (h : ∀ a, a < MAX_RETRIES → attemptResult (env a) = .ok none) :
    get_device_state env =
      (.ok none, [TIMEOUT_STATUS * 1, TIMEOUT_STATUS * 2, TIMEOUT_STATUS * 3]) := by
  have h0 := h 0 (by norm_num [MAX_RETRIES])
  have h1 := h 1 (by norm_num [MAX_RETRIES])
  have h2 := h 2 (by norm_num [MAX_RETRIES])
  have hr : List.range MAX_RETRIES = [0, 1, 2] := rfl
  rw [get_device_state, hr]
  simp [gdsLoop, h0, h1, h2]
  norm_num

/-- Witness for C1: a network that always times out. -/
theorem C1_retry_policy_witness :
    get_device_state (fun _ => NetEvent.timeout) =
      (.ok none, [TIMEOUT_STATUS * 1, TIMEOUT_STATUS * 2, TIMEOUT_STATUS * 3]) :=
  C1_retry_policy (fun _ => NetEvent.timeout) (fun _ _ => rfl)

/-! ## Claim C7 -/

/-- C7: every command input is clamped to its documented range before
transmission: `set_brightness` transmits `max(1, min(100, value))`
(0 transmits 1, 500 transmits 100), `set_color` clamps each channel
independently to [0, 255], `set_color_temp` clamps kelvin to [2000, 9000]. -/
theorem C7_input_clamping :
    (∀ v : Int, msgDataField (set_brightness_message v) "value" =
      some (.num (max 1 (min 100 v)))) ∧
    msgDataField (set_brightness_message 0) "value" = some (.num 1) ∧
    msgDataField (set_brightness_message 500) "value" = some (.num 100) ∧
    (∀ r g b : Int, msgDataField (set_color_message r g b) "color" =
      some (.obj (.cons "r" (.num (max 0 (min 255 r)))
        (.cons "g" (.num (max 0 (min 255 g)))
          (.cons "b" (.num (max 0 (min 255 b))) .nil))))) ∧
    (∀ k : Int, msgDataField (set_color_temp_message k) "colorTemInKelvin" =
      some (.num (max 2000 (min 9000 k)))) :=
  ⟨fun _ => rfl, by decide, by decide, fun _ _ _ => rfl, fun _ => rfl⟩

/-! ## Claim C6 -/

/-- Preservation of the mutual-exclusion invariant by one
`update_local_state` call, whatever its arguments. -/
theorem update_local_state_mutex (st : GoveeDeviceState)
    (o br : Option Json) (c : Option (Json × Json × Json)) (k : Option Json)
    (h : mutexOk st = true) :
    mutexOk (update_local_state st o br c k) = true := by
  cases k with
  | some kv =>
    cases o <;> cases br <;> cases c <;>
      simp [update_local_state, mutexOk, blackColor]
  | none =>
    cases c with
    | some cv =>
      cases o <;> cases br <;>
        simp [update_local_state, mutexOk, kelvinPos]
    | none =>
      cases o <;> cases br <;>
        simpa [update_local_state, mutexOk] using h

/-- Invariant after any sequence of updates from a state satisfying it. -/
theorem apply_updates_mutex (upds : List LocalUpdate) :
    ∀ st : GoveeDeviceState, mutexOk st = true →
      mutexOk (apply_updates st upds) = true := by
  induction upds with
  | nil => intro st h; exact h
  | cons u rest ih =>
    intro st h
    exact ih _ (update_local_state_mutex st u.«on» u.brightness u.color u.color_temp_kelvin h)

/-- C6: `set_color` always transmits `colorTemInKelvin = 0` alongside the
RGB values, `set_color_temp` always transmits color `(0, 0, 0)` alongside
the kelvin value; updating the tracked color clears the tracked kelvin to
0, updating the tracked kelvin clears the tracked color to `(0, 0, 0)`;
and after every sequence of `update_local_state` calls from the
coordinator's initial local state, the tracked state never has both a
positive kelvin and a non-black color. -/
theorem C6_color_temp_mutual_exclusion :
    (∀ r g b : Int, msgDataField (set_color_message r g b) "colorTemInKelvin" =
      some (.num 0)) ∧
    (∀ k : Int, msgDataField (set_color_temp_message k) "color" =
      some (.obj (.cons "r" (.num 0) (.cons "g" (.num 0) (.cons "b" (.num 0) .nil))))) ∧
    (∀ st c, (update_local_state st none none (some c) none).color_temp_kelvin = .num 0) ∧
    (∀ st o br c k, (update_local_state st o br c (some k)).color = blackColor) ∧
    (∀ upds : List LocalUpdate, mutexOk (apply_updates initLocalState upds) = true) := by
  refine ⟨fun _ _ _ => rfl, fun _ => rfl, ?_, ?_, ?_⟩
  · intro st c; simp [update_local_state]
  · intro st o br c k; cases o <;> cases br <;> cases c <;>
      simp [update_local_state, blackColor]
  · intro upds
    exact apply_updates_mutex upds initLocalState (by decide)

/-! ## Claim C10 -/

/-- One coordinator step keeps `available = true`. -/
theorem coordStep_available (c : CoordState) (e : CoordEvent)
    (h : c.available = true) : ((coordStep c e).1).available = true := by
  cases e with
  | poll out =>
    by_cases hs : c.supports_status_query = false <;>
      cases out <;> simp [coordStep, async_update_data, hs]
  | refreshImmediate => simpa [coordStep] using h
  | localUpdate u => simpa [coordStep] using h

/-- C10: `available` is initialized to `true` and every branch of every
state-mutating operation keeps it `true`, so in every reachable
coordinator state — before any poll and after arbitrary event sequences —
the `available` property returns `true`. -/
theorem C10_always_available (tr : List CoordEvent) :
    (runTrace initCoord tr).available = true := by
  suffices h : ∀ c : CoordState, c.available = true →
      (runTrace c tr).available = true from h initCoord rfl
  induction tr with
  | nil => intro c h; exact h
  | cons e rest ih =>
    intro c h
    exact ih _ (coordStep_available c e h)

/-! ## Claim C4 -/

/-- Counterexample to C4 as stated: from the initial state (the latch not
yet set), a poll in which `get_device_state` raises leaves
`_supports_status_query = True`, while a poll returning `None` sets it to
`False` — the two cycles do not have the same effect on the coordinator's
state. -/
theorem C4_counterexample :
    ((async_update_data initCoord PollOutcome.raised).1).supports_status_query = true ∧
    ((async_update_data initCoord PollOutcome.notAvailable).1).supports_status_query = false :=
  ⟨rfl, rfl⟩

/-- C4 (amended): while the latch is not set, a poll in which
`get_device_state` raises has the same effect as a NotAvailable poll on
`available` (set to true) and on the served state (the locally tracked
state), but — unlike a NotAvailable poll — it leaves
`supports_status_query` unchanged (still true), so the exception does not
latch the capability flag. -/
theorem C4_exception_vs_notavailable (c : CoordState)
    (h : c.supports_status_query = true) :
    async_update_data c .raised = ({ c with available := true }, c.local_state, true) ∧
    ((async_update_data c .raised).1).available =
      ((async_update_data c .notAvailable).1).available ∧
    (async_update_data c .raised).2.1 = (async_update_data c .notAvailable).2.1 ∧
    ((async_update_data c .raised).1).supports_status_query = true ∧
    ((async_update_data c .notAvailable).1).supports_status_query = false := by
  refine ⟨?_, ?_, ?_, ?_, ?_⟩ <;> simp [async_update_data, h]

/-- Witness for C4 (amended) at the coordinator's initial state. -/
theorem C4_exception_vs_notavailable_witness :
    async_update_data initCoord .raised =
      ({ initCoord with available := true }, initCoord.local_state, true) ∧
    ((async_update_data initCoord .raised).1).available =
      ((async_update_data initCoord .notAvailable).1).available ∧
    (async_update_data initCoord .raised).2.1 =
      (async_update_data initCoord .notAvailable).2.1 ∧
    ((async_update_data initCoord .raised).1).supports_status_query = true ∧
    ((async_update_data initCoord .notAvailable).1).supports_status_query = false :=
  C4_exception_vs_notavailable initCoord rfl

/-! ## Claim C2 -/

/-- Once the latch is set, one step of any kind keeps it set and issues no
network status query. -/
theorem supports_false_step (c : CoordState) (e : CoordEvent)
    (h : c.supports_status_query = false) :
    ((coordStep c e).1).supports_status_query = false ∧ (coordStep c e).2 = false := by
  cases e with
  | poll out => simp [coordStep, async_update_data, h]
  | refreshImmediate => simp [coordStep, async_refresh_immediate, h]
  | localUpdate u => simpa [coordStep] using h

/-- Once the latch is set, it stays set over any event sequence and no
step of the sequence issues a network status query. -/
theorem supports_false_trace (tr : List CoordEvent) :
    ∀ c : CoordState, c.supports_status_query = false →
      ((runTrace c tr).supports_status_query = false ∧ traceNet c tr = false) := by
  induction tr with
  | nil => intro c h; exact ⟨h, rfl⟩
  | cons e rest ih =>
    intro c h
    have hs := supports_false_step c e h
    have hrest := ih _ hs.1
    refine ⟨by simpa [runTrace] using hrest.1, ?_⟩
    simp [traceNet, hs.2, hrest.2]

/-- C2: any poll that observes `get_device_state` returning `None` leaves
`supports_status_query = false`; from any latched state the flag stays
`false` over every subsequent event sequence, no subsequent poll or
immediate-refresh issues a network status query (even though a poll's
`get_device_state`, were it called, could succeed), every poll serves the
locally tracked state, and every immediate refresh re-publishes the
locally tracked state. -/
theorem C2_status_query_latch (c : CoordState) (tr : List CoordEvent)
    (h : c.supports_status_query = false) :
    (∀ c' : CoordState,
      ((async_update_data c' PollOutcome.notAvailable).1).supports_status_query = false) ∧
    (runTrace c tr).supports_status_query = false ∧
    traceNet c tr = false ∧
    (∀ out, async_update_data c out = ({ c with available := true }, c.local_state, false)) ∧
    async_refresh_immediate c = (.publishLocal c.local_state, false) := by
  refine ⟨?_, (supports_false_trace tr c h).1, (supports_false_trace tr c h).2, ?_, ?_⟩
  · intro c'
    by_cases hc : c'.supports_status_query = false <;>
      simp [async_update_data, hc]
  · intro out; simp [async_update_data, h]
  · simp [async_refresh_immediate, h]

/-- The coordinator state after the first poll that observes `None`. -/
def latchedCoord : CoordState := (async_update_data initCoord PollOutcome.notAvailable).1

/-- Witness for C2: after the latch fires, a trace containing a further
poll (whose raw status query would succeed) and an immediate refresh
keeps the latch set and issues no network call. -/
theorem C2_status_query_latch_witness :
    (runTrace latchedCoord
      [CoordEvent.poll (PollOutcome.success initLocalState),
       CoordEvent.refreshImmediate]).supports_status_query = false ∧
    traceNet latchedCoord
      [CoordEvent.poll (PollOutcome.success initLocalState),
       CoordEvent.refreshImmediate] = false :=
  ⟨(C2_status_query_latch latchedCoord
      [CoordEvent.poll (PollOutcome.success initLocalState),
       CoordEvent.refreshImmediate] rfl).2.1,
   (C2_status_query_latch latchedCoord
      [CoordEvent.poll (PollOutcome.success initLocalState),
       CoordEvent.refreshImmediate] rfl).2.2.1⟩

/-! ## Claim C3 -/

/-- Decoded responses whose envelope-shape checks in `get_device_state`
fail without raising (falsy values; objects with no `"msg"` key; objects
whose `"msg"` member is an object with `cmd ≠ "devStatus"` or without a
`"data"` key).  These — and only response shapes like these — are treated
like a timeout by the retry loop. -/
def benignShapeFail : Json → Bool
  | .obj kvs =>
    match lookupJ kvs "msg" with
    | none => true
    | some (.obj m) =>
      if cmdEq (lookupJ m "cmd") "devStatus" then (lookupJ m "data").isNone else true
    | some _ => false
  | j => !pyTruthy j

/-- A benignly shape-failing decoded response makes the attempt fail
(`None`-equivalent) without raising. -/
theorem benign_handleResponse (j : Json) (hb : benignShapeFail j = true) :
    handleResponse (some j) = .ok none := by
  cases j with
  | obj kvs =>
    cases kvs with
    | nil => rfl
    | cons k v rest =>
      cases hm : lookupJ (.cons k v rest) "msg" with
      | none => simp [handleResponse, pyTruthy, pyContains, hm]
      | some w =>
        cases w with
        | obj m =>
          simp only [benignShapeFail, hm] at hb
          simp only [handleResponse, pyTruthy, pyContains, hm, pySubscript, pyGet]
          by_cases hc : cmdEq (lookupJ m "cmd") "devStatus" = true
          · have hd : (lookupJ m "data").isNone = true := by
              simpa [hc] using hb
            simp [hc, Option.isNone_iff_eq_none.mp hd]
          · simp [eq_false_of_ne_true hc]
        | null => simp [benignShapeFail, hm] at hb
        | bool b => simp [benignShapeFail, hm] at hb
        | num n => simp [benignShapeFail, hm] at hb
        | str s => simp [benignShapeFail, hm] at hb
        | arr xs => simp [benignShapeFail, hm] at hb
  | null => rfl
  | bool b =>
    cases b with
    | false => rfl
    | true => simp [benignShapeFail, pyTruthy] at hb
  | num n =>
    have hn : n = 0 := by simpa [benignShapeFail, pyTruthy] using hb
    subst hn; rfl
  | str s =>
    have hs : s = "" := by simpa [benignShapeFail, pyTruthy] using hb
    subst hs; rfl
  | arr xs =>
    cases xs with
    | nil => rfl
    | cons x rest => simp [benignShapeFail, pyTruthy] at hb

/-- Counterexample to C3 as stated: a malformed (non-JSON) datagram from
the target device does not count as a failed attempt — `json.loads`
raises `JSONDecodeError`, which nothing in `_send_status_query` or
`get_device_state` catches, so the first attempt's exception propagates
to the caller and the retry loop stops after one attempt instead of
continuing. -/
theorem C3_counterexample :
    (get_device_state (fun _ => NetEvent.fromTarget none)).1 =
      .error PyErr.jsonDecode ∧
    (get_device_state (fun _ => NetEvent.fromTarget none)).2 =
      [TIMEOUT_STATUS * 1] := by
  constructor
  · rfl
  · show [TIMEOUT_STATUS * ((0 : ℕ) + 1)] = [TIMEOUT_STATUS * 1]
    norm_num

/-- C3 (amended): a received datagram that decodes to JSON of an
unexpected envelope shape — one failing the shape checks without a
dynamic-typing error — is treated identically to a timeout: the attempt
counts as failed and the retry loop continues to the next attempt with no
exception.  Malformed JSON, by contrast, raises a decode error that
propagates out of `get_device_state` (it is absorbed only at the
coordinator's poll boundary). -/
theorem C3_bad_shape_retried (env : Nat → NetEvent) (j : Json)
    (hb : benignShapeFail j = true)
    (h0 : env 0 = NetEvent.fromTarget (some j)) :
    attemptResult (env 0) = .ok none ∧
    get_device_state env =
      ((gdsLoop env [1, 2]).1, TIMEOUT_STATUS * 1 :: (gdsLoop env [1, 2]).2) := by
  have ha : attemptResult (env 0) = .ok none := by
    rw [h0]
    simp [attemptResult, sendStatusQuery, benign_handleResponse j hb]
  refine ⟨ha, ?_⟩
  have hr : List.range MAX_RETRIES = [0, 1, 2] := rfl
  rw [get_device_state, hr]
  simp [gdsLoop, ha]

/-- Witness for C3 (amended): the empty JSON object as the response. -/
theorem C3_bad_shape_retried_witness :
    attemptResult ((fun _ => NetEvent.fromTarget (some (Json.obj .nil))) 0) = .ok none ∧
    get_device_state (fun _ => NetEvent.fromTarget (some (Json.obj .nil))) =
      ((gdsLoop (fun _ => NetEvent.fromTarget (some (Json.obj .nil))) [1, 2]).1,
        TIMEOUT_STATUS * 1 ::
          (gdsLoop (fun _ => NetEvent.fromTarget (some (Json.obj .nil))) [1, 2]).2) :=
  C3_bad_shape_retried (fun _ => NetEvent.fromTarget (some (Json.obj .nil)))
    (Json.obj .nil) rfl rfl

/-! ## Claim C5 -/

/-- Modelled from the spec's envelope condition: the decoded response is
an object whose `"msg"` member is an object with `cmd == "devStatus"` and
a `"data"` member present. -/
def specValidEnvelope : Json → Bool
  | .obj kvs =>
    match lookupJ kvs "msg" with
    | some (.obj m) => cmdEq (lookupJ m "cmd") "devStatus" && (lookupJ m "data").isSome
    | _ => false
  | _ => false

/-- The data payload's `"color"` entry, if present, is an object (so the
per-channel `.get` calls cannot raise). -/
def colorFieldSafe (dkvs : JsonKVs) : Bool :=
  match lookupJ dkvs "color" with
  | none => true
  | some (.obj _) => true
  | some _ => false

/-- One channel of the parsed color: the channel entry of the `"color"`
object if present, defaulting to `255` (for the channel or the whole
object being absent). -/
def specColorChannel (dkvs : JsonKVs) (k : String) : Json :=
  match (lookupJ dkvs "color").getD (.obj .nil) with
  | .obj ckvs => (lookupJ ckvs k).getD (.num 255)
  | _ => .num 255

/-- Modelled from the spec's named defaults: the state extracted from a
data payload, each absent field falling back to its default
(`on=false`, `brightness=100`, `color=(255,255,255)`, `kelvin=0`). -/
def specParsedState (dkvs : JsonKVs) : GoveeDeviceState :=
  ⟨.bool (onOffEqOne (lookupJ dkvs "onOff")),
   (lookupJ dkvs "brightness").getD (.num 100),
   (specColorChannel dkvs "r", specColorChannel dkvs "g", specColorChannel dkvs "b"),
   (lookupJ dkvs "colorTemInKelvin").getD (.num 0)⟩

/-- C5: a decoded response yields a device state only when the outer
envelope has `cmd == "devStatus"` and a data payload; and every valid
envelope whose data payload is an object (with its `"color"` entry, if
present, an object) yields a state in which each absent field takes its
named default — `on=false`, `brightness=100`, `color=(255,255,255)`,
`kelvin=0` — so a partial response still yields a state rather than a
failed attempt. -/
theorem C5_envelope_and_defaults (kvs m dkvs : JsonKVs)
    (hmsg : lookupJ kvs "msg" = some (.obj m))
    (hcmd : cmdEq (lookupJ m "cmd") "devStatus" = true)
    (hdata : lookupJ m "data" = some (.obj dkvs))
    (hcolor : colorFieldSafe dkvs = true) :
    handleResponse (some (.obj kvs)) = .ok (some (specParsedState dkvs)) ∧
    (∀ (j : Json) (st : GoveeDeviceState),
      handleResponse (some j) = .ok (some st) → specValidEnvelope j = true) := by
  constructor
  · cases kvs with
    | nil => simp [lookupJ] at hmsg
    | cons k v rest =>
      simp only [handleResponse, pyTruthy, pyContains, pySubscript, pyGet, pyGetD,
        hmsg, hdata, hcmd, Option.isSome_some, Bool.true_eq_false, if_false]
      cases hcol : lookupJ dkvs "color" with
      | none =>
        simp [hcol, specParsedState, specColorChannel, lookupJ, pyGetD, pyGet]
      | some cv =>
        cases cv with
        | obj ckvs =>
          simp [hcol, specParsedState, specColorChannel, pyGetD, pyGet]
        | null => simp [colorFieldSafe, hcol] at hcolor
        | bool b => simp [colorFieldSafe, hcol] at hcolor
        | num n => simp [colorFieldSafe, hcol] at hcolor
        | str s => simp [colorFieldSafe, hcol] at hcolor
        | arr xs => simp [colorFieldSafe, hcol] at hcolor
  · intro j st h
    cases j with
    | null => simp [handleResponse, pyTruthy] at h
    | bool b =>
      cases b with
      | false => simp [handleResponse, pyTruthy] at h
      | true => simp [handleResponse, pyTruthy, pyContains] at h
    | num n =>
      by_cases hn : n = 0
      · subst hn; simp [handleResponse, pyTruthy] at h
      · simp [handleResponse, pyTruthy, hn, pyContains] at h
    | str s =>
      by_cases hs : s = ""
      · subst hs; simp [handleResponse, pyTruthy] at h
      · cases hsc : strContains s "msg" <;>
          simp [handleResponse, pyTruthy, hs, pyContains, hsc, pySubscript] at h
    | arr xs =>
      cases xs with
      | nil => simp [handleResponse, pyTruthy] at h
      | cons x rest =>
        cases hmem : memberJ (.cons x rest) (.str "msg") <;>
          simp [handleResponse, pyTruthy, pyContains, hmem, pySubscript] at h
    | obj kvs' =>
      cases kvs' with
      | nil => simp [handleResponse, pyTruthy] at h
      | cons k' v' rest' =>
        cases hm' : lookupJ (.cons k' v' rest') "msg" with
        | none => simp [handleResponse, pyTruthy, pyContains, hm'] at h
        | some w =>
          cases w with
          | obj m' =>
            by_cases hc' : cmdEq (lookupJ m' "cmd") "devStatus" = true
            · cases hd' : lookupJ m' "data" with
              | none =>
                simp [handleResponse, pyTruthy, pyContains, hm', pySubscript,
                  pyGet, hc', hd'] at h
              | some dv => simp [specValidEnvelope, hm', hc', hd']
            · simp [handleResponse, pyTruthy, pyContains, hm', pySubscript,
                pyGet, eq_false_of_ne_true hc'] at h
          | null =>
            simp [handleResponse, pyTruthy, pyContains, hm', pySubscript, pyGet] at h
          | bool b =>
            simp [handleResponse, pyTruthy, pyContains, hm', pySubscript, pyGet] at h
          | num n =>
            simp [handleResponse, pyTruthy, pyContains, hm', pySubscript, pyGet] at h
          | str s =>
            simp [handleResponse, pyTruthy, pyContains, hm', pySubscript, pyGet] at h
          | arr xs =>
            simp [handleResponse, pyTruthy, pyContains, hm', pySubscript, pyGet] at h

/-- Witness for C5: a partial `devStatus` response carrying only
`onOff = 1` parses to a state with every other field at its default. -/
theorem C5_envelope_and_defaults_witness :
    handleResponse (some (Json.obj (kv1 "msg" (Json.obj (kv2 "cmd" (.str "devStatus")
        "data" (Json.obj (kv1 "onOff" (.num 1)))))))) =
      .ok (some ⟨.bool true, .num 100, (.num 255, .num 255, .num 255), .num 0⟩) :=
  (C5_envelope_and_defaults (kv1 "msg" (Json.obj (kv2 "cmd" (.str "devStatus")
      "data" (Json.obj (kv1 "onOff" (.num 1))))))
    (kv2 "cmd" (.str "devStatus") "data" (Json.obj (kv1 "onOff" (.num 1))))
    (kv1 "onOff" (.num 1)) rfl rfl rfl rfl).1

/-! ## Claims C8 and C9 -/

/-- Processing this datagram raises no exception. -/
def replySafe (d : Datagram) : Bool :=
  match processReply d with
  | .ok _ => true
  | .error _ => false

/-- A scan reply envelope carrying the data payload `dkvs`. -/
def scanReply (dkvs : JsonKVs) : Json :=
  .obj (kv1 "msg" (.obj (kv2 "cmd" (.str "scan") "data" (.obj dkvs))))

/-- What the discovery loop computes, for any accumulator: the already
accumulated entries followed by the first-wins dedup (relative to the
already seen identifiers) of the candidates the datagrams contribute. -/
theorem discoGo_spec (ds : List Datagram) :
    ∀ (devs : List GoveeDeviceInfo) (seen : List Json),
      (∀ d ∈ ds, replySafe d = true) →
      discoGo ⟨devs, seen⟩ ds =
        .ok (devs ++ specDedupFirstWins seen (ds.filterMap replyOk)) := by
  induction ds with
  | nil => intro devs seen _; simp [discoGo, specDedupFirstWins]
  | cons d rest ih =>
    intro devs seen hsafe
    have hd : replySafe d = true := hsafe d (List.mem_cons_self d rest)
    have hrest : ∀ x ∈ rest, replySafe x = true :=
      fun x hx => hsafe x (List.mem_cons_of_mem d hx)
    cases hp : processReply d with
    | error e => simp [replySafe, hp] at hd
    | ok o =>
      have hro : replyOk d = o := by simp [replyOk, hp]
      cases o with
      | none =>
        simp only [discoGo, discoStep, hp]
        rw [ih devs seen hrest]
        simp [List.filterMap_cons, hro]
      | some info =>
        by_cases hseen : info.device ∈ seen
        · simp only [discoGo, discoStep, hp, if_pos hseen]
          rw [ih devs seen hrest]
          simp [List.filterMap_cons, hro, specDedupFirstWins, hseen]
        · simp only [discoGo, discoStep, hp, if_neg hseen]
          rw [ih (devs ++ [info]) (seen ++ [info.device]) hrest]
          simp [List.filterMap_cons, hro, specDedupFirstWins, hseen]

/-- The first-wins dedup keeps, for an identifier not yet seen, exactly
the first candidate carrying it. -/
theorem specDedup_find (i : Json) (xs : List GoveeDeviceInfo) :
    ∀ seen : List Json, i ∉ seen →
      (specDedupFirstWins seen xs).find? (fun inf => decide (inf.device = i)) =
        xs.find? (fun inf => decide (inf.device = i)) := by
  induction xs with
  | nil => intro seen _; simp [specDedupFirstWins]
  | cons x rest ih =>
    intro seen hi
    by_cases hx : x.device ∈ seen
    · have hne : x.device ≠ i := fun heq => hi (heq ▸ hx)
      simp [specDedupFirstWins, hx, List.find?_cons, hne, ih seen hi]
    · by_cases hxi : x.device = i
      · subst hxi
        simp [specDedupFirstWins, hx, List.find?_cons]
      · have hi' : i ∉ seen ++ [x.device] := by
          simp only [List.mem_append, List.mem_singleton]
          rintro (hmem | heq)
          · exact hi hmem
          · exact hxi heq.symm
        simp [specDedupFirstWins, hx, List.find?_cons, hxi,
          ih (seen ++ [x.device]) hi']

/-- The identifiers of the first-wins dedup are pairwise distinct and
disjoint from the already seen identifiers. -/
theorem specDedup_ids (xs : List GoveeDeviceInfo) :
    ∀ seen : List Json,
      ((specDedupFirstWins seen xs).map (fun inf => inf.device)).Nodup ∧
      ∀ v ∈ (specDedupFirstWins seen xs).map (fun inf => inf.device), v ∉ seen := by
  induction xs with
  | nil => intro seen; simp [specDedupFirstWins]
  | cons x rest ih =>
    intro seen
    by_cases hx : x.device ∈ seen
    · simpa [specDedupFirstWins, hx] using ih seen
    · have ihs := ih (seen ++ [x.device])
      have hdedup : specDedupFirstWins seen (x :: rest) =
          x :: specDedupFirstWins (seen ++ [x.device]) rest := by
        simp [specDedupFirstWins, hx]
      rw [hdedup]
      constructor
      · rw [List.map_cons, List.nodup_cons]
        refine ⟨fun hmem => ?_, ihs.1⟩
        have hni := ihs.2 x.device hmem
        simp at hni
      · intro v hv
        rw [List.map_cons, List.mem_cons] at hv
        cases hv with
        | inl hveq => exact hveq ▸ hx
        | inr hvmem =>
          have hni := ihs.2 v hvmem
          simp only [List.mem_append, List.mem_singleton, not_or] at hni
          exact hni.1

/-- Counterexample to C8 as stated: two scan replies from different
senders both carrying the (empty, hence falsy) device identifier `""`
contribute no `DiscoveredDevice` at all — not exactly one. -/
theorem C8_counterexample :
    discover_devices
      [⟨"1.1.1.1", some (scanReply (kv1 "device" (.str "")))⟩,
       ⟨"2.2.2.2", some (scanReply (kv1 "device" (.str "")))⟩] = .ok [] := rfl

/-- C8 (amended): provided no reply raises, discovery returns the
first-wins dedup by device identifier of the candidate entries (replies
with a falsy — empty or missing — identifier contribute no candidate):
the result carries pairwise-distinct identifiers, and the unique entry
for any identifier is the first candidate carrying it, retaining that
first reply's address resolution; later duplicates are dropped. -/
theorem C8_dedup_first_wins (ds : List Datagram)
    (h : ∀ d ∈ ds, replySafe d = true) :
    discover_devices ds = .ok (specDedupFirstWins [] (ds.filterMap replyOk)) ∧
    ((specDedupFirstWins [] (ds.filterMap replyOk)).map (fun inf => inf.device)).Nodup ∧
    ∀ i : Json,
      (specDedupFirstWins [] (ds.filterMap replyOk)).find?
          (fun inf => decide (inf.device = i)) =
        (ds.filterMap replyOk).find? (fun inf => decide (inf.device = i)) := by
  refine ⟨?_, (specDedup_ids _ []).1, fun i => specDedup_find i _ [] (by simp)⟩
  have hgo := discoGo_spec ds [] [] h
  simpa [discover_devices] using hgo

/-- Two scan replies carrying the same identifier from different senders,
the first omitting its `ip` field. -/
def dupReplies : List Datagram :=
  [⟨"1.1.1.1", some (scanReply (kv1 "device" (.str "AA")))⟩,
   ⟨"2.2.2.2", some (scanReply (kv1 "device" (.str "AA")))⟩]

/-- Witness for C8 (amended): the duplicate pair contributes exactly one
entry, resolved to the first sender's address. -/
theorem C8_dedup_first_wins_witness :
    discover_devices dupReplies =
      .ok [⟨.str "1.1.1.1", .str "AA", .str "", .null⟩] :=
  (C8_dedup_first_wins dupReplies (by decide)).1

/-- Counterexample to C9 as stated: a reply whose `ip` field is present
but empty is not preferred — `device_data.get("ip") or sender_ip` falls
back to the sender's address `"9.9.9.9"`, not the present value `""`. -/
theorem C9_counterexample :
    replyOk ⟨"9.9.9.9", some (scanReply (kv2 "device" (.str "ID") "ip" (.str "")))⟩ =
      some ⟨.str "9.9.9.9", .str "ID", .str "", .null⟩ ∧
    Json.str "9.9.9.9" ≠ Json.str "" := ⟨rfl, by decide⟩

/-- C9 (amended): for a valid scan reply with a truthy identifier, the
entry's address is `device_data.get("ip") or sender_ip`: with no `ip`
field the sender's source address is used (never an empty or null value,
the sender address being non-empty); a present and truthy `ip` is
preferred; a present but falsy `ip` (empty string or null) also falls
back to the sender's address. -/
theorem C9_ip_fallback (sender : String) (dkvs : JsonKVs) (i : Json)
    (hdev : lookupJ dkvs "device" = some i) (htr : pyTruthy i = true) :
    replyOk ⟨sender, some (scanReply dkvs)⟩ =
      some ⟨pyOr (lookupJ dkvs "ip") (.str sender), i,
        (lookupJ dkvs "sku").getD (.str ""), (lookupJ dkvs "mac").getD .null⟩ ∧
    (lookupJ dkvs "ip" = none →
      pyOr (lookupJ dkvs "ip") (.str sender) = .str sender ∧
      (sender ≠ "" → pyOr (lookupJ dkvs "ip") (.str sender) ≠ .str "" ∧
        pyOr (lookupJ dkvs "ip") (.str sender) ≠ .null)) ∧
    (∀ v, lookupJ dkvs "ip" = some v → pyTruthy v = true →
      pyOr (lookupJ dkvs "ip") (.str sender) = v) ∧
    (∀ v, lookupJ dkvs "ip" = some v → pyTruthy v = false →
      pyOr (lookupJ dkvs "ip") (.str sender) = .str sender) := by
  refine ⟨?_, ?_, ?_, ?_⟩
  · simp [replyOk, processReply, scanReply, kv1, kv2, lookupJ, pyContains,
      pySubscript, pyGet, pyGetD, cmdEq, hdev, htr]
  · intro hip
    refine ⟨by simp [pyOr, hip], fun hs => ⟨?_, ?_⟩⟩ <;>
      simp [pyOr, hip, hs]
  · intro v hv htv; simp [pyOr, hv, htv]
  · intro v hv htv; simp [pyOr, hv, htv]

/-- Witness for C9 (amended): a reply omitting `ip` resolves to the
sender's address. -/
theorem C9_ip_fallback_witness :
    replyOk ⟨"5.5.5.5", some (scanReply (kv1 "device" (.str "ID")))⟩ =
      some ⟨.str "5.5.5.5", .str "ID", .str "", .null⟩ :=
  (C9_ip_fallback "5.5.5.5" (kv1 "device" (.str "ID")) (.str "ID") rfl rfl).1

end GoveeLan
